import Mathlib

/-!
Verification of the chess-AI game-analysis core.

Shallow embedding of the two analysis implementations found in the repository:

* `src/backend/app/services/chess_analysis.py` — class `ChessAnalysisService`
  (embedded in namespace `ChessAI.ChessAnalysisService`);
* `src/backend/app/services/chess_analyzer.py` — class `ChessAnalyzer`
  (embedded in namespace `ChessAI.ChessAnalyzer`).

Python floats are modelled by `ℚ` (every numeric value reaching these code
paths is produced from integer engine scores by ring operations and division,
so `ℚ` tracks the values exactly); engine centipawn scores are `ℤ`.
The external engine (Stockfish) is an oracle: its per-position answers are
inputs to the embedded functions, exactly as the services consume them.
-/

namespace ChessAI

/-- One effect of an analysis run, used to model the order in which an
analysis call acquires resources.  `engineStart` is the launch of the
engine process (`chess.engine.popen_uci` resp. `Stockfish(...)`),
`parseGame` the `chess.pgn.read_game` call, `analyseCall` one evaluation
request sent to the engine, `engineQuit` the engine shutdown. -/
inductive AnalysisEvent where
  | engineStart
  | parseGame
  | analyseCall
  | engineQuit
deriving DecidableEq

namespace ChessAnalysisService

/-- The oracle answer `chess.engine.PovScore` as consumed by
`_score_to_centipawns`: either a centipawn score (`score.relative.score()`,
which is `None` exactly on mate scores, hence the `Option`) or a mate
distance (`score.relative.mate()`). -/
inductive Score where
  | cp (v : Option ℤ)
  | mate (n : ℤ)
deriving DecidableEq

/-- `score.is_mate()`. -/
def Score.is_mate : Score → Bool
  | .mate _ => true
  | .cp _ => false

set_option linter.unusedVariables false in
/-- `ChessAnalysisService._score_to_centipawns(score, turn)`.  The `turn`
parameter is declared and documented in the source ("Ensure score is from
current player's perspective") but never used by the body; the embedding
keeps it unused in the same way.  A mate score is converted to the plain
number `10000` (mate for the side to move) or `-10000`; a centipawn score
is returned as is, with `None` mapped to `0`. -/
def _score_to_centipawns (score : Score) (turn : Bool) : ℤ :=
  match score with
  | .mate mate_in => if mate_in > 0 then 10000 else -10000
  | .cp (some cp) => cp
  | .cp none => 0

/-- `ChessAnalysisService._classify_move(centipawn_loss)`. -/
def _classify_move (centipawn_loss : ℚ) : String :=
  if centipawn_loss ≤ 10 then "best"
  else if centipawn_loss ≤ 25 then "excellent"
  else if centipawn_loss ≤ 50 then "good"
  else if centipawn_loss ≤ 100 then "inaccuracy"
  else if centipawn_loss ≤ 300 then "mistake"
  else "blunder"

/-- The per-ply oracle data consumed by one iteration of the
`analyze_game` loop: the played move (UCI string), the engine answer for
the position before the move (`info_before.get("score")`, `None` when the
engine returned no score), the answer for the position after the move,
and the head of the principal variation of `info_before` (`pv[0]`). -/
structure ServicePly where
  move : String
  score_before : Option Score
  score_after : Option Score
  pv_head : Option String
deriving DecidableEq

/-- One entry of the `move_data` list built by `analyze_game`
(the keys `move_san` is omitted: it needs full board state, which no
claim touches).  `centipawn_loss` and `evaluation` are integers, so the
`round(x, 2)` applied to them in the source is the identity. -/
structure ServiceMove where
  move : String
  ply : ℕ
  centipawn_loss : ℤ
  classification : String
  best_move : Option String
  evaluation : ℤ
deriving DecidableEq

/-- The analysis loop of `ChessAnalysisService.analyze_game`.  `k` is the
number of plies already pushed on the board, so `position_before.turn` is
White exactly when `k` is even, `board.ply()` after the push is `k + 1`,
and `board.turn` after the push is the negation of the turn before.
Returns `(total_centipawn_loss, move_count, move_data)`; a ply whose
before- or after-score is missing is skipped, exactly like the source's
`if score_before and score_after` guard. -/
def analyze_game_loop : ℕ → List ServicePly → ℤ × ℕ × List ServiceMove
  | _, [] => (0, 0, [])
  | k, p :: rest =>
    let r := analyze_game_loop (k + 1) rest
    match p.score_before, p.score_after with
    | some sb, some sa =>
      let cp_before := _score_to_centipawns sb (k % 2 == 0)
      let cp_after := _score_to_centipawns sa (!(k % 2 == 0))
      let cp_loss := max 0 (cp_before - cp_after)
      (r.1 + cp_loss, r.2.1 + 1,
        { move := p.move
        , ply := k + 1
        , centipawn_loss := cp_loss
        , classification := _classify_move (cp_loss : ℚ)
        , best_move := p.pv_head
        , evaluation := cp_after } :: r.2.2)
    | _, _ => r

/-- Python's `round` to two decimal places rounds half to even
(banker's rounding); modelled exactly on `ℚ`. -/
def roundHalfEven (x : ℚ) : ℤ :=
  if x - ⌊x⌋ < 1/2 then ⌊x⌋
  else if 1/2 < x - ⌊x⌋ then ⌊x⌋ + 1
  else if ⌊x⌋ % 2 = 0 then ⌊x⌋ else ⌊x⌋ + 1

/-- `round(x, 2)`. -/
def round2 (x : ℚ) : ℚ := (roundHalfEven (x * 100) : ℚ) / 100

/-- The fields of the dictionary returned by
`ChessAnalysisService.analyze_game` that the claims are about
(`move_classifications` only re-counts `moves` and is omitted). -/
structure ServiceResult where
  accuracy_percentage : ℚ
  average_centipawn_loss : ℚ
  moves : List ServiceMove
  total_moves : ℕ
deriving DecidableEq

/-- `ChessAnalysisService.analyze_game` after the engine answers are fixed:
runs the per-ply loop from the starting position, then computes
`average_cp_loss = total / count` (0 when no move was scored) and
`accuracy_percentage = round(max(0, min(100, 100 - average_cp_loss / 10)), 2)`. -/
def analyze_game (plies : List ServicePly) : ServiceResult :=
  let t := analyze_game_loop 0 plies
  let average_cp_loss : ℚ := if 0 < t.2.1 then (t.1 : ℚ) / (t.2.1 : ℚ) else 0
  { accuracy_percentage := round2 (max 0 (min 100 (100 - average_cp_loss / 10)))
  , average_centipawn_loss := round2 average_cp_loss
  , moves := t.2.2
  , total_moves := t.2.1 }

/-- Control flow of `ChessAnalysisService.analyze_game` as an event trace:
the engine is launched (`popen_uci`) first, the PGN is parsed second; on a
parse failure a `ValueError` is raised (second component `false` = no
result dictionary), with the engine already running and never quit on that
path; on success every ply triggers two `engine.analyse` calls and the
engine is quit at the end. -/
def analyze_game_events (parseOk : Bool) (nPlies : ℕ) : List AnalysisEvent × Bool :=
  ([AnalysisEvent.engineStart, AnalysisEvent.parseGame] ++
    (if parseOk then
      List.replicate (2 * nPlies) AnalysisEvent.analyseCall ++ [AnalysisEvent.engineQuit]
    else []),
   parseOk)

/-- Modelled from the spec, section 4.5 step 2, for comparison with the
source: both evaluations normalized to the perspective of the side that
just moved, the sign being flipped whenever the side to move differs
between the two oracle calls; the loss is
`max(0, eval_before - eval_after)` in that common perspective.
`eval_before` and `eval_after_rel` are the oracle's relative centipawn
evaluations of the pre-move and post-move positions. -/
def spec_normalized_loss (eval_before eval_after_rel : ℤ) (turnChanged : Bool) : ℤ :=
  max 0 (eval_before - (if turnChanged then -eval_after_rel else eval_after_rel))

end ChessAnalysisService

namespace ChessAnalyzer

/-- The dictionary returned by `stockfish.get_evaluation()`:
a `type` field (`"cp"` or `"mate"`) and an integer `value`. -/
structure StockEval where
  type : String
  value : ℤ
deriving DecidableEq

/-- `eval.get('value', 0) if eval.get('type') == 'cp' else 0` — the
coercion `ChessAnalyzer.analyze_game` applies to every engine answer. -/
def evalCp (e : StockEval) : ℤ := if e.type = "cp" then e.value else 0

/-- The per-ply oracle data consumed by one iteration of the
`ChessAnalyzer.analyze_game` loop: the played move (`str(move)`), the
`get_evaluation()` answer for the position after the move, and the
`get_best_move()` answer there. -/
structure PlyInput where
  move : String
  eval : StockEval
  best_move : Option String
deriving DecidableEq

/-- The dataclass `MoveEvaluation` (the field `position_fen` is omitted:
it needs full board state, which no claim touches). -/
structure MoveEvaluation where
  move_number : ℕ
  move : String
  evaluation : ℚ
  best_move : Option String
  mate_in : Option ℤ
  classification : String
  evaluation_change : Option ℚ
deriving DecidableEq

/-- `ChessAnalyzer.classify_move(evaluation_change, is_best_move)` with
the numeric values of `self.thresholds` inlined
(best 0, excellent 25, good 50, inaccuracy 100, mistake 200; the
`blunder` entry 300 of the dictionary is never compared against). -/
def classify_move (evaluation_change : ℚ) (is_best_move : Bool) : String :=
  if is_best_move = true ∨ evaluation_change ≥ 0 then "best"
  else if evaluation_change ≥ 25 then "excellent"
  else if evaluation_change ≥ 50 then "good"
  else if evaluation_change ≥ 100 then "inaccuracy"
  else if evaluation_change ≥ 200 then "mistake"
  else "blunder"

/-- One iteration of the `ChessAnalyzer.analyze_game` loop, producing the
`MoveEvaluation` of ply `move_number` and the new `prev_eval_cp`.
After the push, `board.turn == chess.BLACK` exactly when `move_number` is
odd; in that case the source negates both `current_eval_cp` and
`prev_eval_cp` before taking the difference.  The difference is then
negated again when the player who just moved is the user
(`user_color == 'white'` and odd ply, or `user_color == 'black'` and even
ply).  `prev_eval_cp` for the next iteration is the possibly negated
`current_eval_cp`, exactly as in the source. -/
def analyzeStep (user_color : String) (move_number : ℕ) (prev_eval_cp0 : ℤ)
    (p : PlyInput) : MoveEvaluation × ℤ :=
  let current_eval_cp0 := evalCp p.eval
  let current_eval_cp := if move_number % 2 = 1 then -current_eval_cp0 else current_eval_cp0
  let prev_eval_cp := if move_number % 2 = 1 then -prev_eval_cp0 else prev_eval_cp0
  let eval_change0 := current_eval_cp - prev_eval_cp
  let eval_change :=
    if (user_color = "white" ∧ move_number % 2 = 1) ∨
       (user_color = "black" ∧ move_number % 2 = 0)
    then -eval_change0 else eval_change0
  let is_best : Bool :=
    match p.best_move with
    | some bm => p.move == bm
    | none => false
  ({ move_number := move_number
   , move := p.move
   , evaluation := (current_eval_cp : ℚ)
   , best_move := p.best_move
   , mate_in := if p.eval.type = "mate" then some p.eval.value else none
   , classification := classify_move (eval_change : ℚ) is_best
   , evaluation_change := some (eval_change : ℚ) }, current_eval_cp)

/-- The `for node in game.mainline()` loop of `ChessAnalyzer.analyze_game`:
`n` plies already processed, `prev` the running `prev_eval_cp`. -/
def analyzeMoves (user_color : String) : ℕ → ℤ → List PlyInput → List MoveEvaluation
  | _, _, [] => []
  | n, prev, p :: rest =>
    let r := analyzeStep user_color (n + 1) prev p
    r.1 :: analyzeMoves user_color (n + 1) r.2 rest

/-- The `evaluations` list built by `ChessAnalyzer.analyze_game`:
`prev_eval_cp` is seeded from the evaluation of the starting position
(`initial_eval`), then the loop runs over the mainline plies. -/
def analyze_game_evaluations (user_color : String) (initial_eval : StockEval)
    (plies : List PlyInput) : List MoveEvaluation :=
  analyzeMoves user_color 0 (evalCp initial_eval) plies

/-- The user-move filter of `ChessAnalyzer.analyze_game`: odd move numbers
for White, even move numbers otherwise. -/
def user_moves (user_color : String) (evaluations : List MoveEvaluation) :
    List MoveEvaluation :=
  if user_color = "white" then
    evaluations.filter (fun ev => ev.move_number % 2 == 1)
  else
    evaluations.filter (fun ev => ev.move_number % 2 == 0)

/-- The dataclass `GamePhase`. -/
structure GamePhase where
  name : String
  move_start : ℕ
  move_end : ℕ
  acpl : ℚ
  moves : List MoveEvaluation
  key_positions : List MoveEvaluation
deriving DecidableEq

/-- The inner function `create_phase` of
`ChessAnalyzer.determine_game_phases` (the Python parameter named `end`
is `stop` here, `end` being reserved in Lean): keeps the evaluations
whose move number lies in `[start, stop)`, averages
`abs(ev.evaluation_change or 0)` over them dividing by
`max(len(phase_moves), 1)`, and flags swings above 100 centipawns. -/
def create_phase (evaluations : List MoveEvaluation) (name : String)
    (start stop : ℕ) : GamePhase :=
  let phase_moves := evaluations.filter
    (fun ev => decide (start ≤ ev.move_number ∧ ev.move_number < stop))
  let acpl := (phase_moves.map (fun ev => |ev.evaluation_change.getD 0|)).sum /
    ((max phase_moves.length 1 : ℕ) : ℚ)
  let key_positions := phase_moves.filter
    (fun ev => decide (|ev.evaluation_change.getD 0| > 100))
  { name := name
  , move_start := start
  , move_end := stop
  , acpl := acpl
  , moves := phase_moves
  , key_positions := key_positions }

/-- `ChessAnalyzer.determine_game_phases(total_moves, evaluations)`. -/
def determine_game_phases (total_moves : ℕ) (evaluations : List MoveEvaluation) :
    GamePhase × GamePhase × GamePhase :=
  let opening_end := min 20 (total_moves / 3)
  let endgame_start := max (opening_end + 10) (total_moves * 2 / 3)
  (create_phase evaluations "opening" 1 opening_end,
   create_phase evaluations "middlegame" opening_end endgame_start,
   create_phase evaluations "endgame" endgame_start (total_moves + 1))

/-- Control flow of `ChessAnalyzer.analyze_game` as an event trace:
the PGN is parsed first and a parse failure returns `None` (second
component `false`) before any engine resource is touched; otherwise the
Stockfish engine is initialized and on success the starting position plus
each ply is evaluated. -/
def analyze_game_events (parseOk engineOk : Bool) (nPlies : ℕ) :
    List AnalysisEvent × Bool :=
  if parseOk = false then ([AnalysisEvent.parseGame], false)
  else if engineOk = false then
    ([AnalysisEvent.parseGame, AnalysisEvent.engineStart], false)
  else
    ([AnalysisEvent.parseGame, AnalysisEvent.engineStart] ++
       List.replicate (nPlies + 1) AnalysisEvent.analyseCall, true)

end ChessAnalyzer

/-! ## Claim theorems -/

open ChessAnalysisService ChessAnalyzer in
/-- Claim C1.  The claim states that both evaluations of a ply are
normalized to the perspective of the side that just moved (flipping the
sign when the side to move differs between the two oracle calls) before
the loss `max(0, eval_before - eval_after)` is taken.  The code does not
flip: on a ply whose pre-move relative evaluation is `+50` for the mover
and whose post-move relative evaluation is `-50` for the opponent (the
mover therefore still stands `+50`), `ChessAnalysisService.analyze_game`
records a centipawn loss of `100`, while the normalization the claim
describes yields loss `0`. -/
theorem analyze_game_does_not_normalize_perspective :
    ((ChessAI.ChessAnalysisService.analyze_game
        [{ move := "e2e4"
         , score_before := some (.cp (some 50))
         , score_after := some (.cp (some (-50)))
         , pv_head := none }]).moves.map
      (fun m => m.centipawn_loss)) = [100] ∧
    ChessAI.ChessAnalysisService.spec_normalized_loss 50 (-50) true = 0 := by
  constructor
  · rfl
  · rfl

/-- Claim C4.  `ChessAnalyzer.classify_move` returns `"best"` whenever
`is_best_move` is true, regardless of the evaluation change. -/
theorem classify_move_engine_best (evaluation_change : ℚ) :
    ChessAI.ChessAnalyzer.classify_move evaluation_change true = "best" := by
  simp [ChessAI.ChessAnalyzer.classify_move]

/-- Claim C3.  The inclusive-upper-bound table is implemented exactly by
`ChessAnalysisService._classify_move` (the boundary values 10, 25, 50,
100, 300 map to the more favorable tier), but
`ChessAnalyzer.classify_move` does not reproduce it: because it compares
the non-negative loss with `>=` against the `best` threshold `0` first,
it returns `"best"` for the loss `50` where the table requires
`"good"`. -/
theorem classify_move_table_and_failing_input :
    ChessAI.ChessAnalysisService._classify_move 10 = "best" ∧
    ChessAI.ChessAnalysisService._classify_move 25 = "excellent" ∧
    ChessAI.ChessAnalysisService._classify_move 50 = "good" ∧
    ChessAI.ChessAnalysisService._classify_move 100 = "inaccuracy" ∧
    ChessAI.ChessAnalysisService._classify_move 300 = "mistake" ∧
    ChessAI.ChessAnalysisService._classify_move 301 = "blunder" ∧
    ChessAI.ChessAnalyzer.classify_move 50 false = "best" := by
  refine ⟨?_, ?_, ?_, ?_, ?_, ?_, ?_⟩ <;> decide

/-- Every centipawn loss accumulated by the `analyze_game` loop of
`ChessAnalysisService` is non-negative, at every starting ply index. -/
lemma analyze_game_loop_loss_nonneg :
    ∀ (plies : List ChessAnalysisService.ServicePly) (k : ℕ),
      ∀ m ∈ (ChessAnalysisService.analyze_game_loop k plies).2.2,
        0 ≤ m.centipawn_loss := by
  intro plies
  induction plies with
  | nil =>
    intro k m hm
    simp [ChessAnalysisService.analyze_game_loop] at hm
  | cons p rest ih =>
    intro k m hm
    rcases hb : p.score_before with _ | sb <;>
      rcases ha : p.score_after with _ | sa <;>
      simp only [ChessAnalysisService.analyze_game_loop, hb, ha] at hm
    · exact ih (k + 1) m hm
    · exact ih (k + 1) m hm
    · exact ih (k + 1) m hm
    · rcases List.mem_cons.mp hm with h | h
      · subst h
        exact le_max_left 0 _
      · exact ih (k + 1) m h

/-- Claim C2, amended part.  Every `centipawn_loss` recorded in the
`moves` list returned by `ChessAnalysisService.analyze_game` is
non-negative. -/
theorem service_centipawn_loss_nonneg
    (plies : List ChessAnalysisService.ServicePly)
    (m : ChessAnalysisService.ServiceMove)
    (hm : m ∈ (ChessAI.ChessAnalysisService.analyze_game plies).moves) :
    0 ≤ m.centipawn_loss :=
  analyze_game_loop_loss_nonneg plies 0 m hm

/-- Witness for `service_centipawn_loss_nonneg` on a concrete one-ply run. -/
theorem service_centipawn_loss_nonneg_witness :
    ({ move := "e2e4", ply := 1, centipawn_loss := 10
     , classification := "best", best_move := none, evaluation := 0 } :
      ChessAnalysisService.ServiceMove) ∈
      (ChessAI.ChessAnalysisService.analyze_game
        [{ move := "e2e4"
         , score_before := some (.cp (some 10))
         , score_after := some (.cp (some 0))
         , pv_head := none }]).moves ∧
    (0 : ℤ) ≤ 10 :=
  ⟨by decide,
   service_centipawn_loss_nonneg
     [{ move := "e2e4"
      , score_before := some (.cp (some 10))
      , score_after := some (.cp (some 0))
      , pv_head := none }]
     { move := "e2e4", ply := 1, centipawn_loss := 10
     , classification := "best", best_move := none, evaluation := 0 }
     (by decide)⟩

/-- Claim C2, counterexample part.  The `evaluation_change` field of a
`MoveEvaluation` produced by `ChessAnalyzer.analyze_game` is a signed
quantity and can be negative: with the starting position evaluated at
0 centipawns and the position after the first move evaluated at
-100 centipawns (a raw score the position-flipping and user-flipping code
turns into -100 for the White user), the produced record carries
`evaluation_change = -100 < 0`. -/
theorem analyzer_evaluation_change_negative :
    ((ChessAI.ChessAnalyzer.analyze_game_evaluations "white"
        { type := "cp", value := 0 }
        [{ move := "e2e4", eval := { type := "cp", value := -100 }, best_move := none }]).map
      (fun ev => ev.evaluation_change)) = [some (-100)] ∧
    ¬ ((0 : ℚ) ≤ -100) := by
  constructor
  · rfl
  · decide

/-- Claim C5, counterexample part.  In
`ChessAnalysisService.analyze_game` the UCI engine is launched before the
PGN is parsed, so on a movetext that fails to parse the raised error comes
after the engine process was started (and the engine is never quit on
that path): the trace of a failing run is
`[engineStart, parseGame]` with no result produced. -/
theorem service_parse_failure_engine_started :
    ChessAI.ChessAnalysisService.analyze_game_events false 0 =
      ([AnalysisEvent.engineStart, AnalysisEvent.parseGame], false) ∧
    AnalysisEvent.engineStart ∈
      (ChessAI.ChessAnalysisService.analyze_game_events false 0).1 := by
  constructor
  · rfl
  · decide

/-- Claim C5, amended part.  `ChessAnalyzer.analyze_game` parses the PGN
first and returns `None` on a parse failure: its trace is then exactly
`[parseGame]`, no engine is started and no move record is produced,
whatever the engine availability and ply count would have been. -/
theorem analyzer_parse_failure_no_engine (engineOk : Bool) (nPlies : ℕ) :
    ChessAI.ChessAnalyzer.analyze_game_events false engineOk nPlies =
      ([AnalysisEvent.parseGame], false) ∧
    AnalysisEvent.engineStart ∉
      (ChessAI.ChessAnalyzer.analyze_game_events false engineOk nPlies).1 := by
  refine ⟨rfl, ?_⟩
  simp [ChessAI.ChessAnalyzer.analyze_game_events]

/-- Claim C6, counterexample part.  `ChessAnalysisService._score_to_centipawns`
silently converts a mate score into the plain centipawn number 10000:
on the inputs `mate 3` (a mate signal) and `cp 10000` (a regular score)
it returns the same untagged integer, so a downstream consumer of the
returned number cannot distinguish the two. -/
theorem mate_score_untagged_collision :
    ChessAnalysisService.Score.is_mate (.mate 3) = true ∧
    ChessAnalysisService.Score.is_mate (.cp (some 10000)) = false ∧
    ChessAI.ChessAnalysisService._score_to_centipawns (.mate 3) true =
      ChessAI.ChessAnalysisService._score_to_centipawns (.cp (some 10000)) true := by
  refine ⟨rfl, rfl, rfl⟩

/-- Claim C6, amended part.  For every mate distance `n` and every turn
flag, `_score_to_centipawns` maps the mate score to the untagged
centipawn value 10000 (for `0 < n`) or -10000 (otherwise), and some
regular, non-mate centipawn score is mapped to the very same value. -/
theorem mate_score_coerced_to_centipawns (n : ℤ) (t : Bool) :
    ChessAI.ChessAnalysisService._score_to_centipawns (.mate n) t =
      (if 0 < n then 10000 else -10000) ∧
    ∃ v : ℤ, ChessAnalysisService.Score.is_mate (.cp (some v)) = false ∧
      ChessAI.ChessAnalysisService._score_to_centipawns (.cp (some v)) t =
        ChessAI.ChessAnalysisService._score_to_centipawns (.mate n) t := by
  refine ⟨rfl, if 0 < n then 10000 else -10000, rfl, ?_⟩
  by_cases h : 0 < n <;>
    simp [ChessAI.ChessAnalysisService._score_to_centipawns, h]

/-- Claim C7.  For the three phases produced by
`ChessAnalyzer.determine_game_phases`, the boundaries are
`opening_end = min(20, total_moves // 3)` and
`endgame_start = max(opening_end + 10, total_moves * 2 // 3)`, the
windows are chained contiguously ending at `total_moves + 1`, and every
move number between 1 and `total_moves` lies in exactly one of the three
half-open windows. -/
theorem game_phases_partition (total_moves : ℕ)
    (evaluations : List ChessAnalyzer.MoveEvaluation) (n : ℕ)
    (h1 : 1 ≤ n) (h2 : n ≤ total_moves) :
    (ChessAI.ChessAnalyzer.determine_game_phases total_moves evaluations).1.move_start = 1 ∧
    (ChessAI.ChessAnalyzer.determine_game_phases total_moves evaluations).1.move_end =
      min 20 (total_moves / 3) ∧
    (ChessAI.ChessAnalyzer.determine_game_phases total_moves evaluations).1.move_end =
      (ChessAI.ChessAnalyzer.determine_game_phases total_moves evaluations).2.1.move_start ∧
    (ChessAI.ChessAnalyzer.determine_game_phases total_moves evaluations).2.1.move_end =
      (ChessAI.ChessAnalyzer.determine_game_phases total_moves evaluations).2.2.move_start ∧
    (ChessAI.ChessAnalyzer.determine_game_phases total_moves evaluations).2.2.move_start =
      max (min 20 (total_moves / 3) + 10) (total_moves * 2 / 3) ∧
    (ChessAI.ChessAnalyzer.determine_game_phases total_moves evaluations).2.2.move_end =
      total_moves + 1 ∧
    (((ChessAI.ChessAnalyzer.determine_game_phases total_moves evaluations).1.move_start ≤ n ∧
        n < (ChessAI.ChessAnalyzer.determine_game_phases total_moves evaluations).1.move_end) ∨
      ((ChessAI.ChessAnalyzer.determine_game_phases total_moves evaluations).2.1.move_start ≤ n ∧
        n < (ChessAI.ChessAnalyzer.determine_game_phases total_moves evaluations).2.1.move_end) ∨
      ((ChessAI.ChessAnalyzer.determine_game_phases total_moves evaluations).2.2.move_start ≤ n ∧
        n < (ChessAI.ChessAnalyzer.determine_game_phases total_moves evaluations).2.2.move_end)) ∧
    ¬ (((ChessAI.ChessAnalyzer.determine_game_phases total_moves evaluations).1.move_start ≤ n ∧
        n < (ChessAI.ChessAnalyzer.determine_game_phases total_moves evaluations).1.move_end) ∧
       ((ChessAI.ChessAnalyzer.determine_game_phases total_moves evaluations).2.1.move_start ≤ n ∧
        n < (ChessAI.ChessAnalyzer.determine_game_phases total_moves evaluations).2.1.move_end)) ∧
    ¬ (((ChessAI.ChessAnalyzer.determine_game_phases total_moves evaluations).1.move_start ≤ n ∧
        n < (ChessAI.ChessAnalyzer.determine_game_phases total_moves evaluations).1.move_end) ∧
       ((ChessAI.ChessAnalyzer.determine_game_phases total_moves evaluations).2.2.move_start ≤ n ∧
        n < (ChessAI.ChessAnalyzer.determine_game_phases total_moves evaluations).2.2.move_end)) ∧
    ¬ (((ChessAI.ChessAnalyzer.determine_game_phases total_moves evaluations).2.1.move_start ≤ n ∧
        n < (ChessAI.ChessAnalyzer.determine_game_phases total_moves evaluations).2.1.move_end) ∧
       ((ChessAI.ChessAnalyzer.determine_game_phases total_moves evaluations).2.2.move_start ≤ n ∧
        n < (ChessAI.ChessAnalyzer.determine_game_phases total_moves evaluations).2.2.move_end)) := by
  have o1 : (ChessAI.ChessAnalyzer.determine_game_phases total_moves evaluations).1.move_start = 1 := rfl
  have o2 : (ChessAI.ChessAnalyzer.determine_game_phases total_moves evaluations).1.move_end =
      min 20 (total_moves / 3) := rfl
  have m1 : (ChessAI.ChessAnalyzer.determine_game_phases total_moves evaluations).2.1.move_start =
      min 20 (total_moves / 3) := rfl
  have m2 : (ChessAI.ChessAnalyzer.determine_game_phases total_moves evaluations).2.1.move_end =
      max (min 20 (total_moves / 3) + 10) (total_moves * 2 / 3) := rfl
  have g1 : (ChessAI.ChessAnalyzer.determine_game_phases total_moves evaluations).2.2.move_start =
      max (min 20 (total_moves / 3) + 10) (total_moves * 2 / 3) := rfl
  have g2 : (ChessAI.ChessAnalyzer.determine_game_phases total_moves evaluations).2.2.move_end =
      total_moves + 1 := rfl
  simp only [o1, o2, m1, m2, g1, g2, true_and]
  omega

/-- Witness for `game_phases_partition` at `total_moves = 5`, an empty
evaluation list and move number `n = 2` (which falls in the middlegame
window `[1, 11)`, the opening window `[1, 1)` being empty). -/
theorem game_phases_partition_witness :
    (1 ≤ 2 ∧ 2 ≤ 5) ∧
    ((ChessAI.ChessAnalyzer.determine_game_phases 5 []).1.move_start = 1 ∧
    (ChessAI.ChessAnalyzer.determine_game_phases 5 []).1.move_end = min 20 (5 / 3) ∧
    (ChessAI.ChessAnalyzer.determine_game_phases 5 []).1.move_end =
      (ChessAI.ChessAnalyzer.determine_game_phases 5 []).2.1.move_start ∧
    (ChessAI.ChessAnalyzer.determine_game_phases 5 []).2.1.move_end =
      (ChessAI.ChessAnalyzer.determine_game_phases 5 []).2.2.move_start ∧
    (ChessAI.ChessAnalyzer.determine_game_phases 5 []).2.2.move_start =
      max (min 20 (5 / 3) + 10) (5 * 2 / 3) ∧
    (ChessAI.ChessAnalyzer.determine_game_phases 5 []).2.2.move_end = 5 + 1 ∧
    (((ChessAI.ChessAnalyzer.determine_game_phases 5 []).1.move_start ≤ 2 ∧
        2 < (ChessAI.ChessAnalyzer.determine_game_phases 5 []).1.move_end) ∨
      ((ChessAI.ChessAnalyzer.determine_game_phases 5 []).2.1.move_start ≤ 2 ∧
        2 < (ChessAI.ChessAnalyzer.determine_game_phases 5 []).2.1.move_end) ∨
      ((ChessAI.ChessAnalyzer.determine_game_phases 5 []).2.2.move_start ≤ 2 ∧
        2 < (ChessAI.ChessAnalyzer.determine_game_phases 5 []).2.2.move_end)) ∧
    ¬ (((ChessAI.ChessAnalyzer.determine_game_phases 5 []).1.move_start ≤ 2 ∧
        2 < (ChessAI.ChessAnalyzer.determine_game_phases 5 []).1.move_end) ∧
       ((ChessAI.ChessAnalyzer.determine_game_phases 5 []).2.1.move_start ≤ 2 ∧
        2 < (ChessAI.ChessAnalyzer.determine_game_phases 5 []).2.1.move_end)) ∧
    ¬ (((ChessAI.ChessAnalyzer.determine_game_phases 5 []).1.move_start ≤ 2 ∧
        2 < (ChessAI.ChessAnalyzer.determine_game_phases 5 []).1.move_end) ∧
       ((ChessAI.ChessAnalyzer.determine_game_phases 5 []).2.2.move_start ≤ 2 ∧
        2 < (ChessAI.ChessAnalyzer.determine_game_phases 5 []).2.2.move_end)) ∧
    ¬ (((ChessAI.ChessAnalyzer.determine_game_phases 5 []).2.1.move_start ≤ 2 ∧
        2 < (ChessAI.ChessAnalyzer.determine_game_phases 5 []).2.1.move_end) ∧
       ((ChessAI.ChessAnalyzer.determine_game_phases 5 []).2.2.move_start ≤ 2 ∧
        2 < (ChessAI.ChessAnalyzer.determine_game_phases 5 []).2.2.move_end))) :=
  ⟨⟨by decide, by decide⟩, game_phases_partition 5 [] 2 (by decide) (by decide)⟩

/-- Claim C8.  The `acpl` of a phase produced by `create_phase` is the
arithmetic mean of `abs(evaluation_change or 0)` over the moves of its
window, is 0 when the window is empty, and the divisor
`max(len(phase_moves), 1)` is always positive, so no division by zero can
occur for any input sequence. -/
theorem phase_acpl_is_mean (evaluations : List ChessAnalyzer.MoveEvaluation)
    (name : String) (s t : ℕ) :
    0 < max (ChessAI.ChessAnalyzer.create_phase evaluations name s t).moves.length 1 ∧
    (ChessAI.ChessAnalyzer.create_phase evaluations name s t).acpl =
      (if (ChessAI.ChessAnalyzer.create_phase evaluations name s t).moves.length = 0 then 0
       else ((ChessAI.ChessAnalyzer.create_phase evaluations name s t).moves.map
               (fun ev => |ev.evaluation_change.getD 0|)).sum /
            ((ChessAI.ChessAnalyzer.create_phase evaluations name s t).moves.length : ℚ)) := by
  constructor
  · omega
  · have hr : (ChessAI.ChessAnalyzer.create_phase evaluations name s t).acpl =
        ((ChessAI.ChessAnalyzer.create_phase evaluations name s t).moves.map
          (fun ev => |ev.evaluation_change.getD 0|)).sum /
        ((max (ChessAI.ChessAnalyzer.create_phase evaluations name s t).moves.length 1 : ℕ) : ℚ) := rfl
    rw [hr]
    by_cases h : (ChessAI.ChessAnalyzer.create_phase evaluations name s t).moves.length = 0
    · rw [if_pos h]
      have hm : (ChessAI.ChessAnalyzer.create_phase evaluations name s t).moves = [] :=
        List.length_eq_zero.mp h
      rw [hm]
      simp
    · rw [if_neg h]
      have hmax : max (ChessAI.ChessAnalyzer.create_phase evaluations name s t).moves.length 1 =
          (ChessAI.ChessAnalyzer.create_phase evaluations name s t).moves.length := by omega
      rw [hmax]

/-- The move number stored by one analyzer loop iteration is the iteration
counter it was called with. -/
lemma analyzeStep_move_number (c : String) (mn : ℕ) (prev : ℤ)
    (p : ChessAnalyzer.PlyInput) :
    (ChessAnalyzer.analyzeStep c mn prev p).1.move_number = mn := rfl

/-- Counting the odd move numbers among the records built by the analyzer
loop started at counter `n`: the records carry the move numbers
`n+1, ..., n + length`. -/
lemma analyzeMoves_count_odd (c : String) :
    ∀ (plies : List ChessAnalyzer.PlyInput) (n : ℕ) (prev : ℤ),
      ((ChessAnalyzer.analyzeMoves c n prev plies).filter
        (fun ev => ev.move_number % 2 == 1)).length
        = (n + plies.length + 1) / 2 - (n + 1) / 2 := by
  intro plies
  induction plies with
  | nil =>
    intro n prev
    simp [ChessAnalyzer.analyzeMoves]
  | cons p rest ih =>
    intro n prev
    simp only [ChessAnalyzer.analyzeMoves, List.filter_cons, List.length_cons]
    by_cases h : ((ChessAnalyzer.analyzeStep c (n + 1) prev p).1.move_number % 2 == 1) = true
    · rw [if_pos h, List.length_cons,
        ih (n + 1) (ChessAnalyzer.analyzeStep c (n + 1) prev p).2]
      rw [analyzeStep_move_number] at h
      have h2 : (n + 1) % 2 = 1 := by simpa using h
      omega
    · rw [if_neg h, ih (n + 1) (ChessAnalyzer.analyzeStep c (n + 1) prev p).2]
      rw [analyzeStep_move_number] at h
      have h2 : ¬ (n + 1) % 2 = 1 := by simpa using h
      omega

/-- Counting the even move numbers among the records built by the analyzer
loop started at counter `n`. -/
lemma analyzeMoves_count_even (c : String) :
    ∀ (plies : List ChessAnalyzer.PlyInput) (n : ℕ) (prev : ℤ),
      ((ChessAnalyzer.analyzeMoves c n prev plies).filter
        (fun ev => ev.move_number % 2 == 0)).length
        = (n + plies.length) / 2 - n / 2 := by
  intro plies
  induction plies with
  | nil =>
    intro n prev
    simp [ChessAnalyzer.analyzeMoves]
  | cons p rest ih =>
    intro n prev
    simp only [ChessAnalyzer.analyzeMoves, List.filter_cons, List.length_cons]
    by_cases h : ((ChessAnalyzer.analyzeStep c (n + 1) prev p).1.move_number % 2 == 0) = true
    · rw [if_pos h, List.length_cons,
        ih (n + 1) (ChessAnalyzer.analyzeStep c (n + 1) prev p).2]
      rw [analyzeStep_move_number] at h
      have h2 : (n + 1) % 2 = 0 := by simpa using h
      omega
    · rw [if_neg h, ih (n + 1) (ChessAnalyzer.analyzeStep c (n + 1) prev p).2]
      rw [analyzeStep_move_number] at h
      have h2 : ¬ (n + 1) % 2 = 0 := by simpa using h
      omega

/-- Claim C9.  For every sequence of `total_plies` plies (whatever the
engine answered, here abstract) and every seed evaluation, the filtered
user-move list of `ChessAnalyzer.analyze_game` contains exactly the plies
where that player was the mover: `ceil(total_plies / 2)` records for
White, `floor(total_plies / 2)` records for Black, and never more than
the total ply count. -/
theorem user_move_count_parity (initial_eval : ChessAnalyzer.StockEval)
    (plies : List ChessAnalyzer.PlyInput) :
    (ChessAI.ChessAnalyzer.user_moves "white"
      (ChessAI.ChessAnalyzer.analyze_game_evaluations "white" initial_eval plies)).length =
        (plies.length + 1) / 2 ∧
    (ChessAI.ChessAnalyzer.user_moves "black"
      (ChessAI.ChessAnalyzer.analyze_game_evaluations "black" initial_eval plies)).length =
        plies.length / 2 ∧
    (ChessAI.ChessAnalyzer.user_moves "white"
      (ChessAI.ChessAnalyzer.analyze_game_evaluations "white" initial_eval plies)).length ≤
        plies.length ∧
    (ChessAI.ChessAnalyzer.user_moves "black"
      (ChessAI.ChessAnalyzer.analyze_game_evaluations "black" initial_eval plies)).length ≤
        plies.length := by
  have hw : (ChessAI.ChessAnalyzer.user_moves "white"
      (ChessAI.ChessAnalyzer.analyze_game_evaluations "white" initial_eval plies)).length =
      (0 + plies.length + 1) / 2 - (0 + 1) / 2 := by
    rw [ChessAI.ChessAnalyzer.user_moves, if_pos rfl]
    exact analyzeMoves_count_odd "white" plies 0
      (ChessAnalyzer.evalCp initial_eval)
  have hb : (ChessAI.ChessAnalyzer.user_moves "black"
      (ChessAI.ChessAnalyzer.analyze_game_evaluations "black" initial_eval plies)).length =
      (0 + plies.length) / 2 - 0 / 2 := by
    rw [ChessAI.ChessAnalyzer.user_moves, if_neg (by decide)]
    exact analyzeMoves_count_even "black" plies 0
      (ChessAnalyzer.evalCp initial_eval)
  refine ⟨?_, ?_, ?_, ?_⟩
  · rw [hw]; omega
  · rw [hb]; omega
  · rw [hw]; omega
  · rw [hb]; omega

/-- The running total of the service loop is the sum of the recorded
per-move centipawn losses. -/
lemma analyze_game_loop_total_eq_sum :
    ∀ (plies : List ChessAnalysisService.ServicePly) (k : ℕ),
      (ChessAnalysisService.analyze_game_loop k plies).1 =
        (((ChessAnalysisService.analyze_game_loop k plies).2.2).map
          (fun m => m.centipawn_loss)).sum := by
  intro plies
  induction plies with
  | nil =>
    intro k
    simp [ChessAnalysisService.analyze_game_loop]
  | cons p rest ih =>
    intro k
    rcases hb : p.score_before with _ | sb <;>
      rcases ha : p.score_after with _ | sa <;>
      simp only [ChessAnalysisService.analyze_game_loop, hb, ha]
    · exact ih (k + 1)
    · exact ih (k + 1)
    · exact ih (k + 1)
    · rw [List.map_cons, List.sum_cons, ih (k + 1)]
      ring

/-- `roundHalfEven` never rounds below the floor. -/
lemma le_roundHalfEven (x : ℚ) : ⌊x⌋ ≤ ChessAnalysisService.roundHalfEven x := by
  unfold ChessAnalysisService.roundHalfEven
  split_ifs <;> omega

/-- `roundHalfEven` of a non-negative rational is non-negative. -/
lemma roundHalfEven_nonneg (x : ℚ) (h : 0 ≤ x) :
    0 ≤ ChessAnalysisService.roundHalfEven x :=
  le_trans (Int.floor_nonneg.mpr h) (le_roundHalfEven x)

/-- `roundHalfEven` never rounds above an integer upper bound. -/
lemma roundHalfEven_le (x : ℚ) (b : ℤ) (h : x ≤ (b : ℚ)) :
    ChessAnalysisService.roundHalfEven x ≤ b := by
  have hf : ⌊x⌋ ≤ b := by
    calc ⌊x⌋ ≤ ⌊(b : ℚ)⌋ := Int.floor_le_floor h
    _ = b := Int.floor_intCast b
  have key : 1/2 ≤ x - (⌊x⌋ : ℚ) → ⌊x⌋ + 1 ≤ b := by
    intro hr
    have hfl : (⌊x⌋ : ℚ) + 1/2 ≤ (b : ℚ) := by linarith
    have hlt : (⌊x⌋ : ℚ) < (b : ℚ) := by linarith
    have hlt2 : ⌊x⌋ < b := by exact_mod_cast hlt
    omega
  unfold ChessAnalysisService.roundHalfEven
  split_ifs with h1 h2 h3
  · exact hf
  · exact key (le_of_lt h2)
  · exact hf
  · exact key (not_lt.mp h1)

/-- `round(x, 2)` of a non-negative value is non-negative. -/
lemma round2_nonneg (x : ℚ) (h : 0 ≤ x) : 0 ≤ ChessAnalysisService.round2 x := by
  unfold ChessAnalysisService.round2
  apply div_nonneg _ (by norm_num)
  exact_mod_cast roundHalfEven_nonneg (x * 100) (by nlinarith)

/-- `round(x, 2)` of a value at most 100 is at most 100. -/
lemma round2_le_hundred (x : ℚ) (h : x ≤ 100) :
    ChessAnalysisService.round2 x ≤ 100 := by
  unfold ChessAnalysisService.round2
  rw [div_le_iff₀ (by norm_num : (0:ℚ) < 100)]
  have hb : ChessAnalysisService.roundHalfEven (x * 100) ≤ (10000 : ℤ) :=
    roundHalfEven_le (x * 100) 10000 (by push_cast; nlinarith)
  calc ((ChessAnalysisService.roundHalfEven (x * 100) : ℤ) : ℚ) ≤ ((10000 : ℤ) : ℚ) := by
        exact_mod_cast hb
    _ = 100 * 100 := by norm_num

/-- Rounding the exact value 100 returns 100. -/
lemma round2_hundred : ChessAnalysisService.round2 100 = 100 := by
  have h1 : ((100 : ℚ) * 100) = ((10000 : ℤ) : ℚ) := by norm_num
  unfold ChessAnalysisService.round2 ChessAnalysisService.roundHalfEven
  rw [h1, Int.floor_intCast]
  norm_num

/-- Claim C10, amended part.  The `accuracy_percentage` returned by
`ChessAnalysisService.analyze_game` is `100 - average_cp_loss / 10`
clamped into `[0, 100]` and then rounded half-to-even to two decimal
places (Python `round(x, 2)`); it always lies between 0 and 100
inclusive, and equals exactly 100 when no move was scored. -/
theorem accuracy_percentage_clamped (plies : List ChessAnalysisService.ServicePly) :
    0 ≤ (ChessAI.ChessAnalysisService.analyze_game plies).accuracy_percentage ∧
    (ChessAI.ChessAnalysisService.analyze_game plies).accuracy_percentage ≤ 100 ∧
    ((ChessAI.ChessAnalysisService.analyze_game plies).total_moves = 0 →
      (ChessAI.ChessAnalysisService.analyze_game plies).accuracy_percentage = 100) ∧
    (ChessAI.ChessAnalysisService.analyze_game plies).accuracy_percentage =
      ChessAnalysisService.round2 (max 0 (min 100 (100 -
        (if 0 < (ChessAI.ChessAnalysisService.analyze_game plies).total_moves then
          ((((ChessAI.ChessAnalysisService.analyze_game plies).moves.map
              (fun m => m.centipawn_loss)).sum : ℤ) : ℚ) /
            (((ChessAI.ChessAnalysisService.analyze_game plies).total_moves : ℕ) : ℚ)
        else 0) / 10))) := by
  have hacc : (ChessAI.ChessAnalysisService.analyze_game plies).accuracy_percentage =
      ChessAnalysisService.round2 (max 0 (min 100 (100 -
        (if 0 < (ChessAnalysisService.analyze_game_loop 0 plies).2.1 then
          (((ChessAnalysisService.analyze_game_loop 0 plies).1 : ℤ) : ℚ) /
            ((((ChessAnalysisService.analyze_game_loop 0 plies).2.1 : ℕ)) : ℚ)
        else 0) / 10))) := rfl
  have htm : (ChessAI.ChessAnalysisService.analyze_game plies).total_moves =
      (ChessAnalysisService.analyze_game_loop 0 plies).2.1 := rfl
  have hmv : (ChessAI.ChessAnalysisService.analyze_game plies).moves =
      (ChessAnalysisService.analyze_game_loop 0 plies).2.2 := rfl
  refine ⟨?_, ?_, ?_, ?_⟩
  · rw [hacc]
    exact round2_nonneg _ (le_max_left 0 _)
  · rw [hacc]
    exact round2_le_hundred _ (max_le (by norm_num) (min_le_left 100 _))
  · intro h0
    rw [htm] at h0
    rw [hacc, h0]
    norm_num
    exact round2_hundred
  · rw [hacc, htm, hmv, ← analyze_game_loop_total_eq_sum plies 0]

/-- Witness for `accuracy_percentage_clamped` on the empty game: no move
is scored and the accuracy is exactly 100. -/
theorem accuracy_percentage_clamped_witness :
    (ChessAI.ChessAnalysisService.analyze_game []).total_moves = 0 ∧
    (ChessAI.ChessAnalysisService.analyze_game []).accuracy_percentage = 100 :=
  ⟨rfl, (accuracy_percentage_clamped []).2.2.1 rfl⟩

/-- A concrete three-ply oracle transcript whose recorded losses are
10, 0 and 0 centipawns, so that the average loss is the non-terminating
decimal `10/3`. -/
def rounding_example_plies : List ChessAnalysisService.ServicePly :=
  [{ move := "d2d4", score_before := some (.cp (some 10))
   , score_after := some (.cp (some 0)), pv_head := none },
   { move := "d7d5", score_before := some (.cp (some 0))
   , score_after := some (.cp (some 0)), pv_head := none },
   { move := "c2c4", score_before := some (.cp (some 0))
   , score_after := some (.cp (some 0)), pv_head := none }]

/-- The floor needed for the rounding computation: `29900/3 = 9966.66...`. -/
lemma floor_29900_div_3 : ⌊(29900 : ℚ)/3⌋ = 9966 :=
  Int.floor_eq_iff.mpr (by constructor <;> norm_num)

/-- Claim C10, counterexample part.  The returned `accuracy_percentage`
is rounded to two decimals, so it is not always equal to the clamped
value `max(0, min(100, 100 - average_cp_loss / 10))` itself: on a
three-ply game with losses 10, 0, 0 the average loss is `10/3`, the
clamped value is `299/3 = 99.666...`, and the service returns `99.67`. -/
theorem accuracy_percentage_rounding_counterexample :
    (ChessAI.ChessAnalysisService.analyze_game rounding_example_plies).total_moves = 3 ∧
    ((ChessAI.ChessAnalysisService.analyze_game rounding_example_plies).moves.map
        (fun m => m.centipawn_loss)).sum = 10 ∧
    (ChessAI.ChessAnalysisService.analyze_game rounding_example_plies).accuracy_percentage =
      9967/100 ∧
    (9967/100 : ℚ) ≠ max 0 (min 100 (100 - ((10 : ℚ)/3)/10)) := by
  have hclamp : max (0:ℚ) (min 100 (100 - (10 : ℚ)/3/10)) = 299/3 := by
    rw [min_eq_right (by norm_num), max_eq_right (by norm_num)]
    norm_num
  have hround : ChessAnalysisService.round2 ((299:ℚ)/3) = 9967/100 := by
    have harg : (299:ℚ)/3 * 100 = 29900/3 := by norm_num
    have hrhe : ChessAnalysisService.roundHalfEven ((29900:ℚ)/3) = 9967 := by
      unfold ChessAnalysisService.roundHalfEven
      rw [floor_29900_div_3]
      rw [if_neg (by push_cast; norm_num), if_pos (by push_cast; norm_num)]
      norm_num
    unfold ChessAnalysisService.round2
    rw [harg, hrhe]
    norm_num
  refine ⟨rfl, rfl, ?_, ?_⟩
  · have h1 : (ChessAI.ChessAnalysisService.analyze_game
        rounding_example_plies).accuracy_percentage =
        ChessAnalysisService.round2 (max 0 (min 100 (100 -
          (((10:ℤ) : ℚ) / ((3:ℕ) : ℚ)) / 10))) := rfl
    have h2 : max (0:ℚ) (min 100 (100 - (((10:ℤ) : ℚ) / ((3:ℕ) : ℚ)) / 10)) = 299/3 := by
      push_cast
      rw [min_eq_right (by norm_num), max_eq_right (by norm_num)]
      norm_num
    rw [h1, h2, hround]
  · rw [hclamp]
    norm_num

end ChessAI
